import Mathlib

/-!
Verification of the demo components of the `react-hooks` repository.

Each React component's local state is embedded as a Lean structure and each
event handler as a pure transition function, translated directly from the
`.tsx` sources.  React's rendered-state semantics for one event-handler
invocation is modelled by evaluating all `setX` calls of the handler against
the state of the render in which the handler's closure was created, applying
functional updaters in queue order.
-/

namespace UndoRedo

/-- Local state of `UndoRedoMinimal`
(`src/hooks/useState/examples/03_LazyInit.tsx`, second document):
`past` (stack of previous values), `present` (current value),
`future` (stack of undone values). -/
structure State where
  past : List ℤ
  present : ℤ
  future : List ℤ
  deriving Repr, DecidableEq

/-- `set(val)`: `setPast(p => [...p, present]); setPresent(val); setFuture([])`. -/
def set (val : ℤ) (s : State) : State :=
  { past := s.past ++ [s.present], present := val, future := [] }

/-- `undo`: if `past` is empty do nothing; otherwise `prev = p[p.length-1]`,
push `present` on `future`, restore `prev`, drop the last entry of `past`. -/
def undo (s : State) : State :=
  match s.past.getLast? with
  | none => s
  | some prev =>
      { past := s.past.dropLast, present := prev, future := s.present :: s.future }

/-- `redo`: if `future` is empty do nothing; otherwise `next = f[0]`,
push `present` on `past`, restore `next`, drop the head of `future`. -/
def redo (s : State) : State :=
  match s.future with
  | [] => s
  | next :: rest =>
      { past := s.past ++ [s.present], present := next, future := rest }

/-- The full history sequence held by the component. -/
def history (s : State) : List ℤ :=
  s.past ++ [s.present] ++ s.future

end UndoRedo

/-- **C1**: `UndoRedoMinimal` is built from exactly three pieces of local state
(`past`, `present`, `future`): two states agreeing on the three pieces are the
same state, and each of the three operations `set`, `undo`, `redo` is a
function of those three pieces alone (it reads and writes no other state). -/
theorem undoRedo_state_is_exactly_three_pieces
    (s t : UndoRedo.State)
    (hp : s.past = t.past) (hc : s.present = t.present) (hf : s.future = t.future) :
    s = t ∧ (∀ v, UndoRedo.set v s = UndoRedo.set v t) ∧
      UndoRedo.undo s = UndoRedo.undo t ∧ UndoRedo.redo s = UndoRedo.redo t := by
  obtain ⟨sp, sc, sf⟩ := s
  obtain ⟨tp, tc, tf⟩ := t
  cases hp; cases hc; cases hf
  exact ⟨rfl, fun _ => rfl, rfl, rfl⟩

/-- Witness for C1 at a concrete pair of states. -/
theorem undoRedo_state_is_exactly_three_pieces_witness :
    (⟨[1], 2, [3]⟩ : UndoRedo.State) = ⟨[1], 2, [3]⟩ ∧
      (∀ v, UndoRedo.set v ⟨[1], 2, [3]⟩ = UndoRedo.set v ⟨[1], 2, [3]⟩) ∧
      UndoRedo.undo ⟨[1], 2, [3]⟩ = UndoRedo.undo ⟨[1], 2, [3]⟩ ∧
      UndoRedo.redo ⟨[1], 2, [3]⟩ = UndoRedo.redo ⟨[1], 2, [3]⟩ :=
  undoRedo_state_is_exactly_three_pieces ⟨[1], 2, [3]⟩ ⟨[1], 2, [3]⟩ rfl rfl rfl

/-- **C2**: when `past` is non-empty, undo followed by redo restores all three
state pieces; when `future` is non-empty, redo followed by undo does. -/
theorem undoRedo_undo_redo_inverse (s : UndoRedo.State) :
    (s.past ≠ [] → UndoRedo.redo (UndoRedo.undo s) = s) ∧
      (s.future ≠ [] → UndoRedo.undo (UndoRedo.redo s) = s) := by
  constructor
  · intro h
    rcases List.eq_nil_or_concat s.past with hp | ⟨L, b, hp⟩
    · exact absurd hp h
    · rw [List.concat_eq_append] at hp
      simp only [UndoRedo.undo, hp, List.getLast?_concat, List.dropLast_concat,
        UndoRedo.redo]
      rw [← hp]
  · intro h
    obtain ⟨next, rest, hf⟩ : ∃ a l, s.future = a :: l := by
      cases hfu : s.future with
      | nil => exact absurd hfu h
      | cons a l => exact ⟨a, l, rfl⟩
    simp only [UndoRedo.redo, hf, UndoRedo.undo, List.getLast?_concat,
      List.dropLast_concat]
    rw [← hf]

/-- Witness for C2 at concrete states. -/
theorem undoRedo_undo_redo_inverse_witness :
    UndoRedo.redo (UndoRedo.undo ⟨[1], 2, [3]⟩) = (⟨[1], 2, [3]⟩ : UndoRedo.State) ∧
      UndoRedo.undo (UndoRedo.redo ⟨[1], 2, [3]⟩) = (⟨[1], 2, [3]⟩ : UndoRedo.State) :=
  ⟨(undoRedo_undo_redo_inverse ⟨[1], 2, [3]⟩).1 (by decide),
    (undoRedo_undo_redo_inverse ⟨[1], 2, [3]⟩).2 (by decide)⟩

/-- **C3**: the full history sequence `past ++ [present] ++ future` is
preserved by every `undo` and every `redo`; `set val` transforms it to
`past ++ [present, val]`, emptying `future`. -/
theorem undoRedo_history_invariant (s : UndoRedo.State) (val : ℤ) :
    UndoRedo.history (UndoRedo.undo s) = UndoRedo.history s ∧
      UndoRedo.history (UndoRedo.redo s) = UndoRedo.history s ∧
      UndoRedo.history (UndoRedo.set val s) = s.past ++ [s.present, val] ∧
      (UndoRedo.set val s).future = [] := by
  refine ⟨?_, ?_, ?_, rfl⟩
  · rcases List.eq_nil_or_concat s.past with hp | ⟨L, b, hp⟩
    · simp [UndoRedo.undo, hp]
    · rw [List.concat_eq_append] at hp
      simp [UndoRedo.undo, hp, List.getLast?_concat, List.dropLast_concat,
        UndoRedo.history]
  · cases hfu : s.future with
    | nil => simp [UndoRedo.redo, hfu]
    | cons a l => simp [UndoRedo.redo, hfu, UndoRedo.history]
  · simp [UndoRedo.set, UndoRedo.history]

/-- **C4**: `undo` on an empty `past` leaves all three state pieces unchanged,
and `redo` on an empty `future` leaves all three unchanged. -/
theorem undoRedo_noop_on_empty (s : UndoRedo.State) :
    (s.past = [] → UndoRedo.undo s = s) ∧
      (s.future = [] → UndoRedo.redo s = s) := by
  constructor
  · intro h
    simp [UndoRedo.undo, h]
  · intro h
    simp [UndoRedo.redo, h]

/-- Witness for C4 at a concrete state. -/
theorem undoRedo_noop_on_empty_witness :
    UndoRedo.undo ⟨[], 7, []⟩ = (⟨[], 7, []⟩ : UndoRedo.State) ∧
      UndoRedo.redo ⟨[], 7, []⟩ = (⟨[], 7, []⟩ : UndoRedo.State) :=
  ⟨(undoRedo_noop_on_empty ⟨[], 7, []⟩).1 rfl,
    (undoRedo_noop_on_empty ⟨[], 7, []⟩).2 rfl⟩

namespace Browser

/-- The browser key-value store (`localStorage`), newest binding first. -/
abbrev Store := List (String × String)

/-- `localStorage.getItem(k)`; `none` models the JS `null` result. -/
def getItem (σ : Store) (k : String) : Option String :=
  List.lookup k σ

/-- `localStorage.setItem(k, v)`. -/
def setItem (σ : Store) (k v : String) : Store :=
  (k, v) :: σ

theorem getItem_setItem_self (σ : Store) (k v : String) :
    getItem (setItem σ k v) k = some v := by
  simp [getItem, setItem, List.lookup]

end Browser

namespace PersistLocalStorage

/-- Lazy initializer of `PersistLocalStorage`
(`src/hooks/useState/examples/08_PersistLocalStorage.tsx`):
`localStorage.getItem("theme") || "light"`.  JS `||` yields the right operand
when the left is falsy, i.e. `null` (key absent) or the empty string. -/
def initTheme (σ : Browser.Store) : String :=
  match Browser.getItem σ "theme" with
  | none => "light"
  | some v => if v = "" then "light" else v

/-- Toggle handler: `setTheme(t => (t === "light" ? "dark" : "light"))`. -/
def toggleTheme (t : String) : String :=
  if t = "light" then "dark" else "light"

/-- The persistence effect: `localStorage.setItem("theme", theme)`,
run after every render where `theme` changed (and after the first render). -/
def persistEffect (t : String) (σ : Browser.Store) : Browser.Store :=
  Browser.setItem σ "theme" t

/-- Mounting the component and letting its first persistence effect run. -/
def mount (σ : Browser.Store) : String × Browser.Store :=
  (initTheme σ, persistEffect (initTheme σ) σ)

/-- One toggle click followed by the persistence effect. -/
def clickToggle (p : String × Browser.Store) : String × Browser.Store :=
  (toggleTheme p.1, persistEffect (toggleTheme p.1) p.2)

/-- A mount followed by `n` toggle clicks, each with its effect run. -/
def run (σ : Browser.Store) : ℕ → String × Browser.Store
  | 0 => mount σ
  | n + 1 => clickToggle (run σ n)

theorem initTheme_ne_empty (σ : Browser.Store) : initTheme σ ≠ "" := by
  unfold initTheme
  cases h : Browser.getItem σ "theme" with
  | none => simp
  | some v =>
      by_cases hv : v = "" <;> simp [hv]

theorem toggleTheme_ne_empty (t : String) : toggleTheme t ≠ "" := by
  unfold toggleTheme
  by_cases h : t = "light" <;> simp [h]

theorem run_fst_ne_empty (σ : Browser.Store) (n : ℕ) : (run σ n).1 ≠ "" := by
  cases n with
  | zero => exact initTheme_ne_empty σ
  | succ m => exact toggleTheme_ne_empty (run σ m).1

theorem run_sync (σ : Browser.Store) (n : ℕ) :
    Browser.getItem (run σ n).2 "theme" = some (run σ n).1 := by
  cases n with
  | zero => exact Browser.getItem_setItem_self σ "theme" (initTheme σ)
  | succ m =>
      exact Browser.getItem_setItem_self (run σ m).2 "theme" (toggleTheme (run σ m).1)

end PersistLocalStorage

/-- **C6 counterexample**: the claim says a fresh mount initializes `theme` to
the stored value whenever one exists; but when the stored value is the empty
string, `getItem("theme") || "light"` evaluates to `"light"`, not the stored
value. -/
theorem persist_init_stored_empty_counterexample :
    Browser.getItem [("theme", "")] "theme" = some "" ∧
      PersistLocalStorage.initTheme [("theme", "")] ≠ "" ∧
      PersistLocalStorage.initTheme [("theme", "")] = "light" := by
  refine ⟨rfl, ?_, ?_⟩ <;> decide

/-- **C6 (amended)**: after a mount and any number of toggle clicks, once the
persistence effect has run, the store's `"theme"` entry equals the current
theme state; a fresh mount initializes `theme` to the stored value when a
*non-empty* one exists, and to `"light"` when the store has no `"theme"` entry
(or an empty-string one); and remounting on the store left by any session
restores that session's final theme. -/
theorem persist_theme_sync_and_roundtrip (σ : Browser.Store) (n : ℕ) :
    Browser.getItem (PersistLocalStorage.run σ n).2 "theme"
        = some (PersistLocalStorage.run σ n).1 ∧
      (∀ v, Browser.getItem σ "theme" = some v → v ≠ "" →
        PersistLocalStorage.initTheme σ = v) ∧
      (Browser.getItem σ "theme" = none →
        PersistLocalStorage.initTheme σ = "light") ∧
      (Browser.getItem σ "theme" = some "" →
        PersistLocalStorage.initTheme σ = "light") ∧
      (PersistLocalStorage.mount (PersistLocalStorage.run σ n).2).1
        = (PersistLocalStorage.run σ n).1 := by
  refine ⟨PersistLocalStorage.run_sync σ n, ?_, ?_, ?_, ?_⟩
  · intro v hv hne
    simp [PersistLocalStorage.initTheme, hv, hne]
  · intro hv
    simp [PersistLocalStorage.initTheme, hv]
  · intro hv
    simp [PersistLocalStorage.initTheme, hv]
  · have hs := PersistLocalStorage.run_sync σ n
    have hne := PersistLocalStorage.run_fst_ne_empty σ n
    simp [PersistLocalStorage.mount, PersistLocalStorage.initTheme, hs, hne]

/-- Witness for the amended C6 at concrete stores. -/
theorem persist_theme_sync_and_roundtrip_witness :
    PersistLocalStorage.initTheme [("theme", "dark")] = "dark" ∧
      PersistLocalStorage.initTheme [] = "light" ∧
      PersistLocalStorage.initTheme [("theme", "")] = "light" ∧
      Browser.getItem (PersistLocalStorage.run [] 1).2 "theme"
        = some (PersistLocalStorage.run [] 1).1 :=
  ⟨(persist_theme_sync_and_roundtrip [("theme", "dark")] 0).2.1 "dark" rfl (by decide),
    (persist_theme_sync_and_roundtrip [] 0).2.2.1 rfl,
    (persist_theme_sync_and_roundtrip [("theme", "")] 0).2.2.2.1 rfl,
    (persist_theme_sync_and_roundtrip [] 1).1⟩

namespace ReactQueue

/-- One queued state update of the host framework: `setN(v)` queues a
replacement, `setN(f)` queues a functional updater. -/
inductive Update where
  | replace (v : ℤ)
  | modify (f : ℤ → ℤ)

/-- Apply one queued update to the pending state. -/
def apply1 (n : ℤ) : Update → ℤ
  | .replace v => v
  | .modify f => f n

/-- The framework's batched processing: fold the queue over the state of the
render that enqueued it. -/
def applyQueue (n : ℤ) (q : List Update) : ℤ :=
  q.foldl apply1 n

end ReactQueue

namespace FunctionalUpdateVsStale

/-- The `wrong` handler: `setN(n + 1); setN(n + 1)` — both calls read the same
render-time `n`, so both queue `replace (n + 1)`. -/
def wrong (n : ℤ) : ℤ :=
  ReactQueue.applyQueue n [.replace (n + 1), .replace (n + 1)]

/-- The `right` handler: `setN(v => v + 1); setN(v => v + 1)` — two functional
updaters chained by the framework. -/
def right (n : ℤ) : ℤ :=
  ReactQueue.applyQueue n [.modify (· + 1), .modify (· + 1)]

/-- `useState(0)`: the initializer is the constant 0 and mentions no storage. -/
def init (_σ : Browser.Store) : ℤ := 0

end FunctionalUpdateVsStale

/-- **C9**: under the batched update-queue semantics, one click of the `wrong`
handler increases `n` by exactly 1, while one click of the `right` handler
increases `n` by exactly 2. -/
theorem fus_wrong_adds_one_right_adds_two (n : ℤ) :
    FunctionalUpdateVsStale.wrong n = n + 1 ∧
      FunctionalUpdateVsStale.right n = n + 2 := by
  constructor
  · rfl
  · show n + 1 + 1 = n + 2
    ring

namespace ControlledForm

/-- The form state of `ControlledFormMinimal`
(`src/hooks/useState/examples/05_ControlledFormMinimal.tsx`). -/
structure Form where
  name : String
  email : String
  role : String
  deriving Repr, DecidableEq

/-- `const initial: Form = { name: "", email: "", role: "user" }`. -/
def initial : Form :=
  { name := "", email := "", role := "user" }

/-- The keys of the form (`keyof Form`). -/
inductive Key where
  | name
  | email
  | role
  deriving Repr, DecidableEq

/-- `update(key, value)`: `setForm(f => ({ ...f, [key]: value }))`. -/
def update (k : Key) (v : String) (f : Form) : Form :=
  match k with
  | .name => { f with name := v }
  | .email => { f with email := v }
  | .role => { f with role := v }

/-- The Reset button: `setForm(initial)`. -/
def reset (_f : Form) : Form :=
  initial

/-- Read the field named by a key. -/
def field (k : Key) (f : Form) : String :=
  match k with
  | .name => f.name
  | .email => f.email
  | .role => f.role

end ControlledForm

/-- **C10**: `update(key, value)` sets exactly the field named `key` to
`value` and leaves the other two fields unchanged; Reset restores
`{ name: "", email: "", role: "user" }` from any state. -/
theorem form_update_is_pointwise (f : ControlledForm.Form)
    (k : ControlledForm.Key) (v : String) :
    ControlledForm.field k (ControlledForm.update k v f) = v ∧
      (∀ k', k' ≠ k →
        ControlledForm.field k' (ControlledForm.update k v f)
          = ControlledForm.field k' f) ∧
      ControlledForm.reset f = ControlledForm.initial := by
  refine ⟨?_, ?_, rfl⟩
  · cases k <;> rfl
  · intro k' hne
    cases k <;> cases k' <;>
      simp_all [ControlledForm.field, ControlledForm.update]

/-- Witness for C10 at a concrete form, key and value. -/
theorem form_update_is_pointwise_witness :
    ControlledForm.field .email
        (ControlledForm.update .name "Ada" ⟨"x", "y", "admin"⟩) = "y" :=
  (form_update_is_pointwise ⟨"x", "y", "admin"⟩ .name "Ada").2.1 .email (by decide)

namespace CounterBasic

/-- `useState(0)`: the initializer is the constant 0 and mentions no storage;
it is given the browser store as argument only to state that independence. -/
def init (_σ : Browser.Store) : ℤ := 0

/-- `setCount(count + 1)` (direct update on the rendered value). -/
def incDirect (count : ℤ) : ℤ := count + 1

/-- `setCount(c => c + 1)` (functional update). -/
def incFunctional (count : ℤ) : ℤ := count + 1

/-- `setCount(0)` (Reset button). -/
def reset (_count : ℤ) : ℤ := 0

end CounterBasic

namespace LazyInit

/-- `expensiveInit()` returns 42. -/
def expensiveInit : ℤ := 42

/-- `useState(() => expensiveInit())`: lazy initializer, mentions no storage. -/
def init (_σ : Browser.Store) : ℤ := expensiveInit

/-- `setValue(v => v + 1)` (inc button). -/
def inc (v : ℤ) : ℤ := v + 1

end LazyInit

namespace ControlledForm

/-- `useState<Form>(initial)`: the initializer mentions no storage. -/
def init (_σ : Browser.Store) : Form := initial

end ControlledForm

namespace UndoRedo

/-- `useState<number[]>([])`, `useState(0)`, `useState<number[]>([])`:
the three initializers mention no storage. -/
def init (_σ : Browser.Store) : State :=
  { past := [], present := 0, future := [] }

end UndoRedo

namespace ObjectArray

/-- `type User = { name: string; city: string }`. -/
structure User where
  name : String
  city : String
  deriving Repr, DecidableEq

/-- `type Todo = { id: string; text: string; done: boolean }`. -/
structure Todo where
  id : String
  text : String
  done : Bool
  deriving Repr, DecidableEq

/-- `moveCity`: `setUser(u => ({ ...u, city: "Bangalore" }))`. -/
def moveCity (u : User) : User :=
  { u with city := "Bangalore" }

/-- `addTodo`: append `{ id: crypto.randomUUID(), text: "New item", done: false }`;
the fresh id is a parameter of the model. -/
def addTodo (newId : String) (ts : List Todo) : List Todo :=
  ts ++ [{ id := newId, text := "New item", done := false }]

/-- `toggle(id)`: map, flipping `done` of the matching todo. -/
def toggle (id : String) (ts : List Todo) : List Todo :=
  ts.map fun t => if t.id = id then { t with done := !t.done } else t

/-- `remove(id)`: filter out the todo with the matching id. -/
def remove (id : String) (ts : List Todo) : List Todo :=
  ts.filter fun t => t.id ≠ id

/-- `useState<User>({ name: "Ava", city: "Pune" })` and the two-todo literal of
`useState<Todo[]>([...])`: both initializers are constants mentioning no
storage. -/
def init (_σ : Browser.Store) : User × List Todo :=
  ({ name := "Ava", city := "Pune" },
    [{ id := "1", text := "Learn useState", done := true },
      { id := "2", text := "Practice examples", done := false }])

end ObjectArray

namespace BatchingAndTiming

/-- The `click` handler: three `setN(v => v + 1)` calls batched into one
queue by the framework (the microtask boundary does not split the batch). -/
def click (n : ℤ) : ℤ :=
  ReactQueue.applyQueue n [.modify (· + 1), .modify (· + 1), .modify (· + 1)]

/-- `useState(0)`: the initializer is the constant 0 and mentions no storage. -/
def init (_σ : Browser.Store) : ℤ := 0

end BatchingAndTiming

namespace BasicLog

/-- `setCount(c => c + 1)` of the `BasicLog` useEffect demo; its effect only
logs to the console. -/
def inc (c : ℤ) : ℤ := c + 1

/-- `useState(0)`: the initializer is the constant 0 and mentions no storage. -/
def init (_σ : Browser.Store) : ℤ := 0

end BasicLog

/-- **C7**: every demo component's state is reinitialized on a fresh mount to a
fixed constant independent of the store left by prior sessions — `CounterBasic`
to 0, `FunctionalUpdateVsStale` to 0, `LazyInit` to 42,
`ObjectAndArrayUpdates` to its user/todos literals, `ControlledFormMinimal` to
`{ name: "", email: "", role: "user" }`, `BatchingAndTiming` to 0,
`UndoRedoMinimal` to `([], 0, [])`, `BasicLog` to 0 — except
`PersistLocalStorage`, whose initial theme depends on the stored `"theme"`
entry. -/
theorem demo_inits_are_constants (σ : Browser.Store) :
    CounterBasic.init σ = 0 ∧
      FunctionalUpdateVsStale.init σ = 0 ∧
      LazyInit.init σ = 42 ∧
      ObjectArray.init σ =
        ({ name := "Ava", city := "Pune" },
          [{ id := "1", text := "Learn useState", done := true },
            { id := "2", text := "Practice examples", done := false }]) ∧
      ControlledForm.init σ = { name := "", email := "", role := "user" } ∧
      BatchingAndTiming.init σ = 0 ∧
      UndoRedo.init σ = { past := [], present := 0, future := [] } ∧
      BasicLog.init σ = 0 ∧
      (∃ σ₁ σ₂ : Browser.Store,
        PersistLocalStorage.initTheme σ₁ ≠ PersistLocalStorage.initTheme σ₂) :=
  ⟨rfl, rfl, rfl, rfl, rfl, rfl, rfl, rfl, ⟨[], [("theme", "dark")], by decide⟩⟩

/-- The combined state of every demo component rendered by the
`UseStateShowcase` and `UseEffectShowcase`, plus the browser store. -/
structure AppState where
  counter : ℤ
  fus : ℤ
  lazyValue : ℤ
  user : ObjectArray.User
  todos : List ObjectArray.Todo
  form : ControlledForm.Form
  batching : ℤ
  ur : UndoRedo.State
  theme : String
  basicLog : ℤ
  store : Browser.Store
  deriving Repr, DecidableEq

/-- The demo components rendered by the two showcases. -/
inductive Component where
  | counterBasic
  | functionalUpdateVsStale
  | lazyInit
  | objectAndArrayUpdates
  | controlledFormMinimal
  | batchingAndTiming
  | undoRedoMinimal
  | persistLocalStorage
  | basicLog
  deriving Repr, DecidableEq

/-- Every event handler occurring in the rendered demo components; handlers
taking run-time data (fresh ids, typed text) carry it as an argument. -/
inductive Handler where
  | counterIncDirect
  | counterIncFunctional
  | counterReset
  | fusWrong
  | fusRight
  | lazyInc
  | oauMoveCity
  | oauAddTodo (newId : String)
  | oauToggle (id : String)
  | oauRemove (id : String)
  | formUpdate (k : ControlledForm.Key) (v : String)
  | formReset
  | batchingClick
  | urSetMinus
  | urSetPlus
  | urUndo
  | urRedo
  | themeToggle
  | basicLogInc

/-- The component whose source declares each handler. -/
def owner : Handler → Component
  | .counterIncDirect => .counterBasic
  | .counterIncFunctional => .counterBasic
  | .counterReset => .counterBasic
  | .fusWrong => .functionalUpdateVsStale
  | .fusRight => .functionalUpdateVsStale
  | .lazyInc => .lazyInit
  | .oauMoveCity => .objectAndArrayUpdates
  | .oauAddTodo _ => .objectAndArrayUpdates
  | .oauToggle _ => .objectAndArrayUpdates
  | .oauRemove _ => .objectAndArrayUpdates
  | .formUpdate _ _ => .controlledFormMinimal
  | .formReset => .controlledFormMinimal
  | .batchingClick => .batchingAndTiming
  | .urSetMinus => .undoRedoMinimal
  | .urSetPlus => .undoRedoMinimal
  | .urUndo => .undoRedoMinimal
  | .urRedo => .undoRedoMinimal
  | .themeToggle => .persistLocalStorage
  | .basicLogInc => .basicLog

/-- Executing one handler (with its effects) on the combined state; each
equation is the translation of the corresponding handler's body, which calls
only its own component's setters (and, for `themeToggle`, the persistence
effect of its own component). -/
def step : Handler → AppState → AppState
  | .counterIncDirect, s => { s with counter := CounterBasic.incDirect s.counter }
  | .counterIncFunctional, s => { s with counter := CounterBasic.incFunctional s.counter }
  | .counterReset, s => { s with counter := CounterBasic.reset s.counter }
  | .fusWrong, s => { s with fus := FunctionalUpdateVsStale.wrong s.fus }
  | .fusRight, s => { s with fus := FunctionalUpdateVsStale.right s.fus }
  | .lazyInc, s => { s with lazyValue := LazyInit.inc s.lazyValue }
  | .oauMoveCity, s => { s with user := ObjectArray.moveCity s.user }
  | .oauAddTodo newId, s => { s with todos := ObjectArray.addTodo newId s.todos }
  | .oauToggle id, s => { s with todos := ObjectArray.toggle id s.todos }
  | .oauRemove id, s => { s with todos := ObjectArray.remove id s.todos }
  | .formUpdate k v, s => { s with form := ControlledForm.update k v s.form }
  | .formReset, s => { s with form := ControlledForm.reset s.form }
  | .batchingClick, s => { s with batching := BatchingAndTiming.click s.batching }
  | .urSetMinus, s => { s with ur := UndoRedo.set (s.ur.present - 1) s.ur }
  | .urSetPlus, s => { s with ur := UndoRedo.set (s.ur.present + 1) s.ur }
  | .urUndo, s => { s with ur := UndoRedo.undo s.ur }
  | .urRedo, s => { s with ur := UndoRedo.redo s.ur }
  | .themeToggle, s =>
      { s with
        theme := PersistLocalStorage.toggleTheme s.theme
        store := PersistLocalStorage.persistEffect
          (PersistLocalStorage.toggleTheme s.theme) s.store }
  | .basicLogInc, s => { s with basicLog := BasicLog.inc s.basicLog }

/-- The type of each component's local state. -/
def LocalTy : Component → Type
  | .counterBasic => ℤ
  | .functionalUpdateVsStale => ℤ
  | .lazyInit => ℤ
  | .objectAndArrayUpdates => ObjectArray.User × List ObjectArray.Todo
  | .controlledFormMinimal => ControlledForm.Form
  | .batchingAndTiming => ℤ
  | .undoRedoMinimal => UndoRedo.State
  | .persistLocalStorage => String
  | .basicLog => ℤ

/-- Each component's local state inside the combined state. -/
def localState : (c : Component) → AppState → LocalTy c
  | .counterBasic, s => s.counter
  | .functionalUpdateVsStale, s => s.fus
  | .lazyInit, s => s.lazyValue
  | .objectAndArrayUpdates, s => (s.user, s.todos)
  | .controlledFormMinimal, s => s.form
  | .batchingAndTiming, s => s.batching
  | .undoRedoMinimal, s => s.ur
  | .persistLocalStorage, s => s.theme
  | .basicLog, s => s.basicLog

/-- A concrete combined state used to instantiate the frame theorems. -/
def demoState : AppState :=
  { counter := 0
    fus := 0
    lazyValue := 42
    user := { name := "Ava", city := "Pune" }
    todos := []
    form := ControlledForm.initial
    batching := 0
    ur := { past := [], present := 0, future := [] }
    theme := "light"
    basicLog := 0
    store := [] }

/-- **C8**: executing any event handler of one demo component leaves every
other demo component's local state unchanged — the components share no mutable
state. -/
theorem handlers_preserve_other_components (h : Handler) (c : Component)
    (s : AppState) (hne : c ≠ owner h) :
    localState c (step h s) = localState c s := by
  cases h <;> cases c <;> first | exact absurd rfl hne | rfl

/-- Witness for C8: the stale-update handler does not touch the counter. -/
theorem handlers_preserve_other_components_witness :
    localState .counterBasic (step .fusWrong demoState)
      = localState .counterBasic demoState :=
  handlers_preserve_other_components .fusWrong .counterBasic demoState (by decide)

/-- **C5**: every handler of a component other than `PersistLocalStorage`
neither writes the browser store nor depends on it; the non-persisting
initializers do not depend on it either; and `PersistLocalStorage` both reads
it (two stores give different initial themes) and writes it (its toggle
changes the store). -/
theorem only_persist_accesses_storage :
    (∀ (h : Handler) (s : AppState), owner h ≠ Component.persistLocalStorage →
      (step h s).store = s.store ∧
        ∀ σ, step h { s with store := σ } = { step h s with store := σ }) ∧
      (∀ σ₁ σ₂ : Browser.Store,
        CounterBasic.init σ₁ = CounterBasic.init σ₂ ∧
          FunctionalUpdateVsStale.init σ₁ = FunctionalUpdateVsStale.init σ₂ ∧
          LazyInit.init σ₁ = LazyInit.init σ₂ ∧
          ObjectArray.init σ₁ = ObjectArray.init σ₂ ∧
          ControlledForm.init σ₁ = ControlledForm.init σ₂ ∧
          BatchingAndTiming.init σ₁ = BatchingAndTiming.init σ₂ ∧
          UndoRedo.init σ₁ = UndoRedo.init σ₂ ∧
          BasicLog.init σ₁ = BasicLog.init σ₂) ∧
      (∃ σ₁ σ₂ : Browser.Store,
        PersistLocalStorage.initTheme σ₁ ≠ PersistLocalStorage.initTheme σ₂) ∧
      (∃ s : AppState, (step Handler.themeToggle s).store ≠ s.store) := by
  refine ⟨?_, fun σ₁ σ₂ => ⟨rfl, rfl, rfl, rfl, rfl, rfl, rfl, rfl⟩,
    ⟨[], [("theme", "dark")], by decide⟩, ⟨demoState, by decide⟩⟩
  intro h s hne
  cases h <;> first | exact absurd rfl hne | exact ⟨rfl, fun σ => rfl⟩

/-- Witness for C5: a `CounterBasic` handler at a concrete state and store. -/
theorem only_persist_accesses_storage_witness :
    (step Handler.counterReset demoState).store = demoState.store ∧
      step Handler.counterReset { demoState with store := [("k", "v")] }
        = { step Handler.counterReset demoState with store := [("k", "v")] } :=
  ⟨(only_persist_accesses_storage.1 Handler.counterReset demoState (by decide)).1,
    (only_persist_accesses_storage.1 Handler.counterReset demoState (by decide)).2
      [("k", "v")]⟩
